import Mathlib

/-!
Verification of the TrueVibe deepfake-scoring pipeline
(`src/server/ai-service/model.py`) against its natural-language
specification.

The score pipeline works on Python floats; we embed all scores as exact
rationals (`ℚ`).  The pretrained classifier, the OpenCV cascade detector
and the pixel-statistics computations of the probes are external
collaborators: they enter the embedding as explicit inputs (per-frame
classifier scores, per-parameter-set detection lists, channel statistics),
exactly at the boundary where the Python code consumes their outputs.
A Python exception that a function does not catch is embedded as
`Except.error`; a function whose body is wrapped in `try/except` always
returns `Except.ok`-like plain values.
-/

namespace TrueVibe

/-! ### Constants (model.py lines 87-119) -/

def FAKE_THRESHOLD : ℚ := 55/100
def SUSPICIOUS_THRESHOLD : ℚ := 38/100
def GAN_FINGERPRINT_BOOST : ℚ := 12/100
def FACE_CONFIDENCE_THRESHOLD : ℚ := 55/100

/-! ### Basic helpers -/

/-- Contiguous-sublist test on character lists. -/
def charsHas (sub : List Char) : List Char → Bool
  | [] => sub.isPrefixOf []
  | c :: t => sub.isPrefixOf (c :: t) || charsHas sub t

/-- Python's `sub in s` substring test (both sides as given). -/
def strHas (sub s : String) : Bool := charsHas sub.toList s.toList

/-- Python's `sub in s.lower()`.  Lowering is per character; every pattern
matched in the source is ASCII, where `Char.toLower` agrees with
`str.lower()`. -/
def strHasLower (sub s : String) : Bool :=
  charsHas sub.toList (s.toList.map Char.toLower)

/-- Arithmetic mean of a list of rationals; Python code always guards the
empty case before dividing, and `ℚ` division by zero is `0` anyway. -/
def listMean (l : List ℚ) : ℚ := l.sum / l.length

/-- `np.var`: population variance. -/
def popVar (l : List ℚ) : ℚ :=
  (l.map (fun x => (x - listMean l) ^ 2)).sum / l.length

/-- `np.diff`: consecutive differences. -/
def consecDiffs : List ℚ → List ℚ
  | [] => []
  | [_] => []
  | a :: b :: t => (b - a) :: consecDiffs (b :: t)

/-- First element-wise maximum of a nonempty list (`max(...)` in Python). -/
def listMax : List ℚ → Option ℚ
  | [] => none
  | h :: t => some (t.foldl max h)

/-! ### Data model

A `Frame` is one entry of the `frames` list passed to `analyze_frames`,
paired with the opaque batch classifier's output for it (`result['fake']`,
`result['real']`): the model call itself is an external collaborator. -/

structure Frame where
  name : String
  weight : ℚ
  fake : ℚ
  real : ℚ
deriving DecidableEq, Repr

/-- model.py 2174-2180: frame-name based categorization.
`'face' in name_lower and 'fft' not in name_lower and 'eye' not in name_lower`. -/
def isFaceName (n : String) : Bool :=
  strHasLower "face" n && !strHasLower "fft" n && !strHasLower "eye" n

def isFftName (n : String) : Bool := strHasLower "fft" n

def isEyeName (n : String) : Bool := strHasLower "eye" n

def faceScoresOf (frames : List Frame) : List ℚ :=
  (frames.filter fun f => isFaceName f.name).map Frame.fake

def fftScoresOf (frames : List Frame) : List ℚ :=
  (frames.filter fun f => isFftName f.name).map Frame.fake

def eyeScoresOf (frames : List Frame) : List ℚ :=
  (frames.filter fun f => isEyeName f.name).map Frame.fake

/-- model.py 2166-2168: weighted sums over all frames. -/
def totalWeightOf (frames : List Frame) : ℚ := (frames.map Frame.weight).sum

def weightedAvgFake (frames : List Frame) : ℚ :=
  (frames.map fun f => f.fake * f.weight).sum / totalWeightOf frames

/-! ### Score-adjustment stages of `analyze_frames` (model.py 2196-2284)

Each stage returns the adjusted running average together with the detail
value the code records for it. -/

/-- model.py 2092-2104: `analyze_temporal_consistency`. -/
def analyze_temporal_consistency (fakeScores : List ℚ) : ℚ :=
  if fakeScores.length < 2 then 0
  else
    let variance := popVar fakeScores
    let meanDiff := listMean ((consecDiffs fakeScores).map (|·|))
    min ((variance * (5/2) + meanDiff * (3/2)) / 2) (35/100)

/-- model.py 2196-2202: temporal boost, video only, added when above 0.05.
Returns (new average, recorded `temporal_boost`). -/
def temporal_stage (isVideo : Bool) (fakeScores : List ℚ) (avg : ℚ) : ℚ × ℚ :=
  if isVideo && fakeScores.length > 2 then
    let tb := analyze_temporal_consistency fakeScores
    if tb > 5/100 then (avg + tb, tb) else (avg, tb)
  else (avg, 0)

/-- model.py 2206-2214: multi-face consistency boost.
Returns (new average, recorded `face_consistency_boost`). -/
def face_consistency_stage (faceScores : List ℚ) (avg : ℚ) : ℚ × ℚ :=
  if faceScores.length > 1 then
    let v := popVar faceScores
    if v > 15/100 then
      let boost := min (12/100) (v * (1/2))
      (avg + boost, boost)
    else (avg, 0)
  else (avg, 0)

/-- model.py 2216-2221: filter compensation.  `filterIntensity` is
`content_info.get('filter_intensity', 0)` when a `content_info` dict was
passed (`none` models the video path, which passes no dict).
Returns (new average, recorded `filter_compensation`). -/
def filter_compensation_stage (filterIntensity : Option ℚ) (avg : ℚ) : ℚ × ℚ :=
  match filterIntensity with
  | some fi =>
      if fi > 1/2 then
        let comp := fi * (6/100)
        (max (8/100) (avg - comp), comp)
      else (avg, 0)
  | none => (avg, 0)

/-- model.py 2224-2228: GAN fingerprint boost from FFT frame scores.
Returns (new average, recorded `gan_fingerprint_boost`). -/
def gan_stage (fftScores : List ℚ) (avg : ℚ) : ℚ × ℚ :=
  match listMax fftScores with
  | some m =>
      if m > FAKE_THRESHOLD then (avg + GAN_FINGERPRINT_BOOST, GAN_FINGERPRINT_BOOST)
      else (avg, 0)
  | none => (avg, 0)

/-- model.py 2232-2250: screen-content compensation.  `screenProbe` is the
outcome of `detect_screen_content` on the first frame: `some (isScreen,
conf)` on normal return, `none` when the probed call raised (the code
swallows the exception and applies nothing).
Returns (new average, `screen_detected`). -/
def screen_stage (facesCount framesLen : ℕ) (screenProbe : Option (Bool × ℚ))
    (avg : ℚ) : ℚ × Bool :=
  if facesCount = 0 ∧ framesLen > 0 then
    match screenProbe with
    | some (true, conf) =>
        let comp := 20/100 + conf * (25/100)
        (max (5/100) (avg - comp), true)
    | _ => (avg, false)
  else (avg, false)

/-- Whether a screen-probe outcome is a positive screen detection
(`is_screen` true on a normal return). -/
def isScreenHit : Option (Bool × ℚ) → Bool
  | some (true, _) => true
  | _ => false

/-- model.py 2256-2278: no-face branch.  Runs only with zero faces and no
screen content detected; the average entering this stage is the fully
boosted/compensated frame-weighted average. -/
def no_face_stage (facesCount : ℕ) (screenDetected : Bool)
    (faceScores fftScores eyeScores : List ℚ) (avg : ℚ) : ℚ :=
  if facesCount = 0 ∧ screenDetected = false then
    let avgFace := if faceScores ≠ [] then listMean faceScores else 0
    let avgFft := if fftScores ≠ [] then listMean fftScores else 0
    let avgEye := if eyeScores ≠ [] then listMean eyeScores else 0
    if avg > 1/2 then avg
    else if avgFace < 1/10 ∧ avgFft < 1/10 ∧ avgEye < 1/10 then 8/100
    else avg
  else avg

/-- The running average as it enters the no-face branch (everything in
model.py 2193-2250 composed in source order). -/
def preNoFaceAvg (frames : List Frame) (facesCount : ℕ) (isVideo : Bool)
    (filterIntensity : Option ℚ) (screenProbe : Option (Bool × ℚ)) : ℚ :=
  let a0 := weightedAvgFake frames
  let a1 := (temporal_stage isVideo (frames.map Frame.fake) a0).1
  let a2 := (face_consistency_stage (faceScoresOf frames) a1).1
  let a3 := (filter_compensation_stage filterIntensity a2).1
  let a4 := (gan_stage (fftScoresOf frames) a3).1
  (screen_stage facesCount frames.length screenProbe a4).1

def screenDetectedOf (frames : List Frame) (facesCount : ℕ) (isVideo : Bool)
    (filterIntensity : Option ℚ) (screenProbe : Option (Bool × ℚ)) : Bool :=
  let a0 := weightedAvgFake frames
  let a1 := (temporal_stage isVideo (frames.map Frame.fake) a0).1
  let a2 := (face_consistency_stage (faceScoresOf frames) a1).1
  let a3 := (filter_compensation_stage filterIntensity a2).1
  let a4 := (gan_stage (fftScoresOf frames) a3).1
  (screen_stage facesCount frames.length screenProbe a4).2

/-- The fully adjusted average right before the final clamp
(model.py 2280). -/
def finalAvgFake (frames : List Frame) (facesCount : ℕ) (isVideo : Bool)
    (filterIntensity : Option ℚ) (screenProbe : Option (Bool × ℚ)) : ℚ :=
  no_face_stage facesCount
    (screenDetectedOf frames facesCount isVideo filterIntensity screenProbe)
    (faceScoresOf frames) (fftScoresOf frames) (eyeScoresOf frames)
    (preNoFaceAvg frames facesCount isVideo filterIntensity screenProbe)

/-- The `v8_accuracy` block and related detail fields recorded by
`analyze_frames` (model.py 2355, 2364-2369). -/
structure AggDetails where
  temporal_boost : ℚ
  face_consistency_boost : ℚ
  filter_compensation : ℚ
  gan_fingerprint_boost : ℚ
deriving DecidableEq, Repr

/-- model.py 2122-2375, `analyze_frames` score aggregation.  Returns the
final `{fake, real}` scores and (when not returning early) the boost
details.  Early returns (no frames / zero total weight, model.py 2140-2141
and 2190-2191) yield the fixed pair and no v8 details. -/
def analyze_frames (frames : List Frame) (facesCount : ℕ) (isVideo : Bool)
    (filterIntensity : Option ℚ) (screenProbe : Option (Bool × ℚ)) :
    (ℚ × ℚ) × Option AggDetails :=
  if frames.length = 0 then ((15/100, 85/100), none)
  else if totalWeightOf frames = 0 then ((15/100, 85/100), none)
  else
    let a0 := weightedAvgFake frames
    let t := temporal_stage isVideo (frames.map Frame.fake) a0
    let fc := face_consistency_stage (faceScoresOf frames) t.1
    let fl := filter_compensation_stage filterIntensity fc.1
    let g := gan_stage (fftScoresOf frames) fl.1
    let sc := screen_stage facesCount frames.length screenProbe g.1
    let a := no_face_stage facesCount sc.2 (faceScoresOf frames)
      (fftScoresOf frames) (eyeScoresOf frames) sc.1
    ((min (99/100) a, max (1/100) (1 - a)), some ⟨t.2, fc.2, fl.2, g.2⟩)

/-! ### Classification finalizer and image-path boosts -/

/-- model.py 2771-2783, `_finalize`: verdict and confidence from the final
probabilities. -/
def finalize_classification (fake real : ℚ) : String × ℚ :=
  if fake > FAKE_THRESHOLD then ("fake", fake)
  else if fake > SUSPICIOUS_THRESHOLD then ("suspicious", fake)
  else ("real", real)

/-- model.py 2598-2611 / 2648-2650: how `_analyze_image` applies a
(stylization/phase-1/phase-2) boost to the probability pair — only when
strictly positive. -/
def apply_image_boost (boost : ℚ) (p : ℚ × ℚ) : ℚ × ℚ :=
  if boost > 0 then (min (p.1 + boost) (99/100), max (p.2 - boost) (1/100))
  else p

/-- model.py 2582-2595: the accumulated Phase-1 forensic boost on the
image path, one independent gate per forensic flag. -/
def phase1_boost (doubleCompression editingSoftware metadataStripped
    blendingArtifacts : Bool) : ℚ :=
  (if doubleCompression then 8/100 else 0)
  + (if editingSoftware then 10/100 else 0)
  + (if metadataStripped then 5/100 else 0)
  + (if blendingArtifacts then 12/100 else 0)

/-! ### Face locator (model.py 1484-1532, `detect_faces`)

The OpenCV cascade is an external collaborator: it enters the embedding
as a function `det` from a (scaleFactor, minNeighbors) parameter pair to
the list of raw detections.  Boxes are in pixels, so natural numbers;
`int(x / scale)` with `scale = 640 / w_orig ≤ 1` is exact natural
division `x * w_orig / 640` (operands are nonnegative). -/

structure BBox where
  x : ℕ
  y : ℕ
  w : ℕ
  h : ℕ
deriving DecidableEq, Repr

structure FaceInfo where
  bbox : BBox
  confidence : ℚ
  index : ℕ
deriving DecidableEq, Repr

/-- model.py 1521-1522: scale detections back to original coordinates. -/
def rescaleBox (wOrig : ℕ) (b : BBox) : BBox :=
  if wOrig > 640 then
    ⟨b.x * wOrig / 640, b.y * wOrig / 640, b.w * wOrig / 640, b.h * wOrig / 640⟩
  else b

/-- model.py 1524-1527: detection plausibility score. -/
def boxConfidence (b : BBox) : ℚ :=
  let aspectRatio : ℚ := if b.h > 0 then (b.w : ℚ) / (b.h : ℚ) else 0
  let sizeScore : ℚ := min 1 ((b.w * b.h : ℚ) / (150 * 150))
  let aspectScore : ℚ := 1 - |1 - aspectRatio| * (1/2)
  (sizeScore + aspectScore) / 2

/-- model.py 1518-1531: rescale, score and threshold the chosen raw
detections (`index` is the position in the raw list, kept even when
earlier detections are discarded). -/
def processBoxes (wOrig : ℕ) (boxes : List BBox) : List FaceInfo :=
  boxes.enum.filterMap fun p =>
    let b := rescaleBox wOrig p.2
    if boxConfidence b ≥ FACE_CONFIDENCE_THRESHOLD then
      some ⟨b, boxConfidence b, p.1⟩
    else none

/-- model.py 1506-1516: try the parameter combinations in fixed order and
keep the first nonempty detection list (empty if all three fail). -/
def firstNonEmptyDet (det : ℚ × ℕ → List BBox) : List BBox :=
  match det (11/10, 5) with
  | [] =>
      match det (21/20, 3) with
      | [] => det (6/5, 6)
      | l => l
  | l => l

def detect_faces (wOrig : ℕ) (det : ℚ × ℕ → List BBox) : List FaceInfo :=
  processBoxes wOrig (firstNonEmptyDet det)

/-! ### EXIF metadata probe (model.py 1128-1200, `analyze_exif_metadata`)

The EXIF dictionary is embedded as an ordered association list of
(tag-name, stringified value); `backendOk = false` models the outer
`except` path (the code returns `(0.0, {'error': ...})`, whose dict has
neither flag key, embedded as both flags `false` plus an error marker). -/

structure ExifDetails where
  metadata_stripped : Bool
  editing_software_detected : Bool
  software_name : Option String
  suspicious_fields : List String
  original_date : Option String
  modification_date : Option String
  error : Bool
deriving DecidableEq, Repr

def initExifDetails : ExifDetails :=
  { metadata_stripped := false
    editing_software_detected := false
    software_name := none
    suspicious_fields := []
    original_date := none
    modification_date := none
    error := false }

/-- model.py 1154-1159. -/
def editing_tools : List String :=
  ["photoshop", "gimp", "lightroom", "affinity", "pixlr",
   "snapseed", "vsco", "facetune", "faceapp", "reface",
   "dall-e", "midjourney", "stable diffusion", "artbreeder",
   "deepfake", "faceswap", "generative", "ai"]

/-- model.py 1161-1188: one iteration of the tag loop.  The Software
branch breaks after the first matching tool (single append); the
comment-tag branch has no break and appends once per matching tool. -/
def exifStep (acc : ExifDetails × ℚ) (tv : String × String) : ExifDetails × ℚ :=
  let tag := tv.1
  let value := tv.2
  let acc :=
    if tag = "Software" then
      let d := { acc.1 with software_name := some value }
      if editing_tools.any (fun tool => strHasLower tool value) then
        ({ d with editing_software_detected := true
                  suspicious_fields := d.suspicious_fields ++ ["Software: " ++ value] },
         max acc.2 (4/10))
      else (d, acc.2)
    else acc
  let acc :=
    if tag = "ImageDescription" ∨ tag = "XPComment" ∨ tag = "UserComment" then
      let matched := editing_tools.filter (fun tool => strHasLower tool value)
      if matched ≠ [] then
        ({ acc.1 with suspicious_fields :=
             acc.1.suspicious_fields ++ matched.map (fun _ => tag ++ ": " ++ value.take 50) },
         max acc.2 (3/10))
      else acc
    else acc
  let acc :=
    if tag = "DateTimeOriginal" then ({ acc.1 with original_date := some value }, acc.2)
    else acc
  if tag = "DateTime" then ({ acc.1 with modification_date := some value }, acc.2)
  else acc

/-- model.py 1191-1194: the post-loop date-inconsistency check. -/
def exifDateCheck (acc : ExifDetails × ℚ) : ExifDetails × ℚ :=
  match acc.1.original_date, acc.1.modification_date with
  | some od, some md =>
      if od ≠ md then
        ({ acc.1 with suspicious_fields := acc.1.suspicious_fields ++ ["Date mismatch"] },
         max acc.2 (2/10))
      else acc
  | _, _ => acc

def analyze_exif_metadata (backendOk : Bool) (exif : List (String × String)) :
    ℚ × ExifDetails :=
  if backendOk = false then (0, { initExifDetails with error := true })
  else if exif = [] then (3/10, { initExifDetails with metadata_stripped := true })
  else
    let acc := exifDateCheck (exif.foldl exifStep (initExifDetails, 0))
    (min acc.2 1, acc.1)

/-! ### Color-consistency probe (model.py 481-515)

`analyze_color_consistency` computes the std-dev of the LAB a/b channels
(numpy/cv2, external) and derives a suspicion score.  The source body has
NO `try/except` and builds no details map: any backend failure (e.g. cv2
unavailable) propagates to the caller, embedded as `Except.error`.  On
success it returns `(suspicion, color_image)`; the image half is not
modeled. -/

structure ColorStats where
  aStd : ℚ
  bStd : ℚ
deriving DecidableEq, Repr

def analyze_color_consistency (backendOk : Bool) (s : ColorStats) : Except Unit ℚ :=
  if backendOk then
    let optimalStd : ℚ := 20
    let aDeviation := |s.aStd - optimalStd| / optimalStd
    let bDeviation := |s.bStd - optimalStd| / optimalStd
    Except.ok (min 1 ((aDeviation + bDeviation) / 2))
  else Except.error ()

/-! ### Social-media filter probe (model.py 811-945)

`detect_social_media_filters` is wrapped whole in `try/except`; its
pixel statistics are external inputs.  The `except` branch returns the
neutral score `0.0` plus an error marker.  The numeric per-signal detail
fields are not modeled (the claims concern the returned score and the
error marker). -/

structure FilterStats where
  textureMean : ℚ
  edgeDensity : ℚ
  hueEntropy : ℚ
  orangeHue : ℚ
  tealHue : ℚ
  vignetteCorrelation : ℚ
  skinPixelCount : ℕ
  skinLStd : ℚ
  satMean : ℚ
  satVariance : ℚ
deriving DecidableEq, Repr

structure FilterDetails where
  filters_detected : List String
  error : Bool
deriving DecidableEq, Repr

def detect_social_media_filters (backendOk : Bool) (s : FilterStats) :
    ℚ × FilterDetails :=
  if backendOk = false then (0, { filters_detected := [], error := true })
  else
    let acc : ℚ × List String := (0, [])
    let acc :=
      if s.textureMean < 4 ∧ s.edgeDensity > 3/100 then
        (acc.1 + (6/10 - s.textureMean / 10) * (3/10), acc.2 ++ ["skin_smoothing"])
      else acc
    let acc :=
      if s.hueEntropy < 1/2 then
        (acc.1 + (1/2 - s.hueEntropy) * (1/4), acc.2 ++ ["color_grading"])
      else acc
    let acc :=
      if s.orangeHue > 3/10 ∧ s.tealHue > 1/10 then
        (acc.1 + 15/100, acc.2 ++ ["orange_teal_grading"])
      else acc
    let acc :=
      if s.vignetteCorrelation < -(15/100) then (acc.1 + 1/10, acc.2 ++ ["vignette"])
      else acc
    let skinUniformity : ℚ := max 0 (min 1 (1 - s.skinLStd / 30))
    let acc :=
      if s.skinPixelCount > 500 ∧ skinUniformity > 7/10 then
        (acc.1 + skinUniformity * (2/10), acc.2 ++ ["beauty_mode"])
      else acc
    let acc :=
      if s.satMean > 120 ∧ s.satVariance < 1500 then
        (acc.1 + 15/100, acc.2 ++ ["saturation_boost"])
      else acc
    (min acc.1 1, { filters_detected := acc.2, error := false })

/-! ### Shared lemmas -/

theorem clamp_pair (a : ℚ) :
    min (99/100) a + max (1/100) (1 - a) = 1
    ∧ min (99/100) a ≤ 99/100 ∧ 1/100 ≤ max (1/100) (1 - a) := by
  refine ⟨?_, min_le_left _ _, le_max_left _ _⟩
  rcases le_total a (99/100) with h | h
  · rw [min_eq_right h, max_eq_right (by linarith)]; ring
  · rw [min_eq_left h, max_eq_left (by linarith)]; norm_num

theorem list_sum_const {c : ℚ} :
    ∀ {l : List ℚ}, (∀ x ∈ l, x = c) → l.sum = c * l.length
  | [], _ => by simp
  | x :: t, h => by
      have hx : x = c := h x (List.mem_cons_self _ _)
      have ht := list_sum_const (fun y hy => h y (List.mem_cons_of_mem _ hy))
      simp [hx, ht]; ring

theorem listMean_const {c : ℚ} {l : List ℚ} (hne : l ≠ [])
    (h : ∀ x ∈ l, x = c) : listMean l = c := by
  have hpos : 0 < l.length := List.length_pos.mpr hne
  have hlen : (l.length : ℚ) ≠ 0 := by exact_mod_cast hpos.ne'
  rw [listMean, list_sum_const h, mul_div_assoc, div_self hlen, mul_one]

theorem popVar_const {c : ℚ} {l : List ℚ} (h : ∀ x ∈ l, x = c) :
    popVar l = 0 := by
  rcases eq_or_ne l [] with rfl | hne
  · simp [popVar, listMean]
  · have hm := listMean_const hne h
    have : (l.map (fun x => (x - listMean l) ^ 2)).sum = 0 := by
      apply List.sum_eq_zero
      intro y hy
      obtain ⟨x, hx, rfl⟩ := List.mem_map.mp hy
      rw [h x hx, hm, sub_self]; ring
    rw [popVar, this, zero_div]

theorem frames_sum_fake_mul_const {c : ℚ} :
    ∀ {l : List Frame}, (∀ f ∈ l, f.fake = c) →
      (l.map fun f => f.fake * f.weight).sum = c * (l.map Frame.weight).sum
  | [], _ => by simp
  | f :: t, h => by
      have hf : f.fake = c := h f (List.mem_cons_self _ _)
      have ht := frames_sum_fake_mul_const (fun g hg => h g (List.mem_cons_of_mem _ hg))
      simp [hf, ht]; ring

theorem totalWeight_pos {l : List Frame} (hne : l ≠ [])
    (hw : ∀ f ∈ l, 0 < f.weight) : 0 < totalWeightOf l := by
  apply List.sum_pos
  · intro x hx
    obtain ⟨f, hf, rfl⟩ := List.mem_map.mp hx
    exact hw f hf
  · simpa using hne

theorem weightedAvgFake_const {c : ℚ} {l : List Frame} (hne : l ≠ [])
    (hw : ∀ f ∈ l, 0 < f.weight) (hf : ∀ f ∈ l, f.fake = c) :
    weightedAvgFake l = c := by
  have hW : totalWeightOf l ≠ 0 := (totalWeight_pos hne hw).ne'
  rw [weightedAvgFake, frames_sum_fake_mul_const hf, totalWeightOf] at *
  rw [mul_div_assoc, div_self hW, mul_one]

theorem filtered_fakes_const {c : ℚ} {l : List Frame}
    (hf : ∀ f ∈ l, f.fake = c) (p : Frame → Bool) :
    ∀ x ∈ (l.filter p).map Frame.fake, x = c := by
  intro x hx
  obtain ⟨f, hfm, rfl⟩ := List.mem_map.mp hx
  exact hf f (List.mem_of_mem_filter hfm)

theorem foldl_max_const {c : ℚ} :
    ∀ {t : List ℚ}, (∀ x ∈ t, x = c) → t.foldl max c = c
  | [], _ => rfl
  | x :: t, h => by
      have hx : x = c := h x (List.mem_cons_self _ _)
      have ht := foldl_max_const (fun y hy => h y (List.mem_cons_of_mem _ hy))
      simp [hx, ht]

theorem listMax_const {c : ℚ} {l : List ℚ} (hne : l ≠ [])
    (h : ∀ x ∈ l, x = c) : listMax l = some c := by
  match l, hne with
  | x :: t, _ =>
      have hx : x = c := h x (List.mem_cons_self _ _)
      have ht := foldl_max_const (fun y hy => h y (List.mem_cons_of_mem _ hy))
      simp [listMax, hx, ht]

theorem temporal_stage_image (xs : List ℚ) (a : ℚ) :
    temporal_stage false xs a = (a, 0) := by
  simp [temporal_stage]

theorem face_consistency_stage_const {c : ℚ} {l : List ℚ}
    (h : ∀ x ∈ l, x = c) (a : ℚ) :
    face_consistency_stage l a = (a, 0) := by
  unfold face_consistency_stage
  simp only [popVar_const h]
  split_ifs with h1 h2
  · norm_num at h2
  · rfl
  · rfl

theorem gan_stage_le (l : List ℚ) (a : ℚ) : a ≤ (gan_stage l a).1 := by
  unfold gan_stage
  cases listMax l with
  | none => simp
  | some m =>
      dsimp only
      split_ifs
      · simp [GAN_FINGERPRINT_BOOST]; norm_num
      · simp

theorem gan_stage_const_low {c : ℚ} {l : List ℚ} (h : ∀ x ∈ l, x = c)
    (hc : ¬ FAKE_THRESHOLD < c) (a : ℚ) : gan_stage l a = (a, 0) := by
  rcases eq_or_ne l [] with rfl | hne
  · simp [gan_stage, listMax]
  · rw [gan_stage, listMax_const hne h]
    simp [hc]

theorem screen_stage_no_hit {probe : Option (Bool × ℚ)}
    (h : isScreenHit probe = false) (fc fl : ℕ) (a : ℚ) :
    screen_stage fc fl probe a = (a, false) := by
  unfold screen_stage
  split_ifs with hg
  · match probe, h with
    | none, _ => rfl
    | some (false, _), _ => rfl
  · rfl

theorem no_face_stage_high {a : ℚ} (h : 1/2 < a)
    (faS ffS eyS : List ℚ) :
    no_face_stage 0 false faS ffS eyS a = a := by
  unfold no_face_stage
  rw [if_pos ⟨rfl, rfl⟩, if_pos h]

theorem sub_avg_lt {l : List ℚ} {c : ℚ} (h : ∀ x ∈ l, x = c) (hc : c < 1/10) :
    (if l ≠ [] then listMean l else 0) < 1/10 := by
  split_ifs with hne
  · rw [listMean_const hne h]; exact hc
  · norm_num

theorem analyze_frames_scores {frames : List Frame} (h1 : frames.length ≠ 0)
    (h2 : totalWeightOf frames ≠ 0) (fc : ℕ) (iv : Bool)
    (fi : Option ℚ) (probe : Option (Bool × ℚ)) :
    (analyze_frames frames fc iv fi probe).1 =
      (min (99/100) (finalAvgFake frames fc iv fi probe),
       max (1/100) (1 - finalAvgFake frames fc iv fi probe)) := by
  rw [analyze_frames, if_neg h1, if_neg h2]; rfl

theorem exifStep_stripped (acc : ExifDetails × ℚ) (tv : String × String) :
    (exifStep acc tv).1.metadata_stripped = acc.1.metadata_stripped := by
  unfold exifStep
  dsimp only
  split_ifs <;> rfl

theorem foldl_exifStep_stripped (l : List (String × String)) (acc : ExifDetails × ℚ) :
    (l.foldl exifStep acc).1.metadata_stripped = acc.1.metadata_stripped := by
  induction l generalizing acc with
  | nil => rfl
  | cons x t ih => rw [List.foldl_cons, ih, exifStep_stripped]

theorem exifDateCheck_stripped (acc : ExifDetails × ℚ) :
    (exifDateCheck acc).1.metadata_stripped = acc.1.metadata_stripped := by
  unfold exifDateCheck
  split
  · split_ifs <;> rfl
  · rfl

/-! ### Claim theorems -/

/-- C1 (counterexample): the claimed invariant "both fake and real lie in
[0.01, 0.99]" fails.  A single-face run whose frames all score fake = 0
(possible: the classifier's softmax output is rounded to 4 decimals)
reaches the final clamp with average 0 and returns fake = 0 < 0.01 and
real = 1 > 0.99. -/
theorem C1_counterexample :
    (analyze_frames [⟨"face1_s100", 5, 0, 1⟩, ⟨"face1_fft", 3, 0, 1⟩]
        1 false none none).1.1 < 1/100
    ∧ 99/100 < (analyze_frames [⟨"face1_s100", 5, 0, 1⟩, ⟨"face1_fft", 3, 0, 1⟩]
        1 false none none).1.2 := by
  have h1 : isFaceName "face1_s100" = true := by decide
  have h2 : isFftName "face1_s100" = false := by decide
  have h3 : isEyeName "face1_s100" = false := by decide
  have h4 : isFaceName "face1_fft" = false := by decide
  have h5 : isFftName "face1_fft" = true := by decide
  have h6 : isEyeName "face1_fft" = false := by decide
  norm_num [analyze_frames, totalWeightOf, weightedAvgFake, temporal_stage,
    face_consistency_stage, filter_compensation_stage, gan_stage, screen_stage,
    no_face_stage, faceScoresOf, fftScoresOf, eyeScoresOf, List.filter_cons,
    h1, h2, h3, h4, h5, h6, listMax, popVar, listMean, FAKE_THRESHOLD,
    GAN_FINGERPRINT_BOOST, max_def, min_def]

/-- C1 (amended): for every aggregation input the returned scores satisfy
fake + real = 1, fake ≤ 0.99 and real ≥ 0.01 (the clamp is one-sided:
fake = min(0.99, avg), real = max(0.01, 1 − avg)); the image-path boost
application preserves these bounds. -/
theorem C1_theorem :
    (∀ (frames : List Frame) (fc : ℕ) (iv : Bool) (fi : Option ℚ)
        (probe : Option (Bool × ℚ)),
      (analyze_frames frames fc iv fi probe).1.1
          + (analyze_frames frames fc iv fi probe).1.2 = 1
      ∧ (analyze_frames frames fc iv fi probe).1.1 ≤ 99/100
      ∧ 1/100 ≤ (analyze_frames frames fc iv fi probe).1.2)
    ∧ (∀ (b : ℚ) (p : ℚ × ℚ), 0 ≤ b → p.1 + p.2 = 1 → p.1 ≤ 99/100 →
        1/100 ≤ p.2 →
      (apply_image_boost b p).1 + (apply_image_boost b p).2 = 1
      ∧ (apply_image_boost b p).1 ≤ 99/100
      ∧ 1/100 ≤ (apply_image_boost b p).2) := by
  constructor
  · intro frames fc iv fi probe
    by_cases h1 : frames.length = 0
    · simp [analyze_frames, h1]; norm_num
    · by_cases h2 : totalWeightOf frames = 0
      · simp [analyze_frames, h1, h2]; norm_num
      · rw [analyze_frames_scores h1 h2]
        exact clamp_pair _
  · intro b p hb hsum h99 h01
    unfold apply_image_boost
    split_ifs with hpos
    · dsimp only
      refine ⟨?_, min_le_right _ _, le_max_right _ _⟩
      rcases le_total (p.1 + b) (99/100) with h | h
      · rw [min_eq_left h, max_eq_left (by linarith)]; linarith
      · rw [min_eq_right h, max_eq_right (by linarith)]; norm_num
    · exact ⟨hsum, h99, h01⟩

/-- C1 witness: the hypotheses of the boost-preservation half discharged
at boost 1/10 on the pair (1/2, 1/2). -/
theorem C1_witness :
    (0:ℚ) ≤ 1/10 ∧ ((1:ℚ)/2) + ((1:ℚ)/2) = 1
    ∧ ((apply_image_boost (1/10) (1/2, 1/2)).1
         + (apply_image_boost (1/10) (1/2, 1/2)).2 = 1
       ∧ (apply_image_boost (1/10) (1/2, 1/2)).1 ≤ 99/100
       ∧ 1/100 ≤ (apply_image_boost (1/10) (1/2, 1/2)).2) :=
  ⟨by norm_num, by norm_num,
   C1_theorem.2 (1/10) (1/2, 1/2) (by norm_num) (by norm_num) (by norm_num)
     (by norm_num)⟩

/-- C2: the finalizer returns "fake" exactly when fake > 0.55,
"suspicious" exactly when 0.38 < fake ≤ 0.55, "real" otherwise; the
confidence is the fake score for "fake"/"suspicious" and the real score
for "real"; no "fake" verdict is possible with fake ≤ 0.38. -/
theorem C2_theorem (fake real : ℚ) :
    ((finalize_classification fake real).1 = "fake" ↔ FAKE_THRESHOLD < fake)
    ∧ ((finalize_classification fake real).1 = "suspicious" ↔
        (SUSPICIOUS_THRESHOLD < fake ∧ fake ≤ FAKE_THRESHOLD))
    ∧ ((finalize_classification fake real).1 = "real" ↔ fake ≤ SUSPICIOUS_THRESHOLD)
    ∧ ((finalize_classification fake real).1 = "fake" →
        (finalize_classification fake real).2 = fake)
    ∧ ((finalize_classification fake real).1 = "suspicious" →
        (finalize_classification fake real).2 = fake)
    ∧ ((finalize_classification fake real).1 = "real" →
        (finalize_classification fake real).2 = real)
    ∧ ((finalize_classification fake real).1 = "fake" →
        SUSPICIOUS_THRESHOLD < fake) := by
  have hfs : ("fake" : String) ≠ "suspicious" := by decide
  have hfr : ("fake" : String) ≠ "real" := by decide
  have hsr : ("suspicious" : String) ≠ "real" := by decide
  have hth : SUSPICIOUS_THRESHOLD < FAKE_THRESHOLD := by
    unfold SUSPICIOUS_THRESHOLD FAKE_THRESHOLD; norm_num
  unfold finalize_classification
  split_ifs with h1 h2
  · exact ⟨iff_of_true rfl h1,
      iff_of_false hfs (fun h => absurd h.2 (not_le.mpr h1)),
      iff_of_false hfr (fun h => by linarith),
      fun _ => rfl, fun _ => rfl, fun h => absurd h hfr,
      fun _ => by linarith⟩
  · exact ⟨iff_of_false hfs.symm h1,
      iff_of_true rfl ⟨h2, not_lt.mp h1⟩,
      iff_of_false hsr (fun h => by linarith),
      fun _ => rfl, fun _ => rfl, fun h => absurd h hsr,
      fun h => absurd h hfs.symm⟩
  · exact ⟨iff_of_false hfr.symm h1,
      iff_of_false hsr.symm (fun h => absurd h.1 h2),
      iff_of_true rfl (not_lt.mp h2),
      fun h => absurd h hfr.symm, fun h => absurd h hsr.symm,
      fun _ => rfl, fun h => absurd h hfr.symm⟩

/-- C2 witness: the confidence clauses discharged at fake = 0.7. -/
theorem C2_witness :
    (finalize_classification (7/10) (3/10)).1 = "fake"
    ∧ (finalize_classification (7/10) (3/10)).2 = 7/10
    ∧ SUSPICIOUS_THRESHOLD < 7/10 := by
  have hc : (finalize_classification (7/10) (3/10)).1 = "fake" := by
    norm_num [finalize_classification, FAKE_THRESHOLD]
  exact ⟨hc, (C2_theorem (7/10) (3/10)).2.2.2.1 hc,
    (C2_theorem (7/10) (3/10)).2.2.2.2.2.2 hc⟩

/-- C3: with zero faces, no screen content detected, and the classifier
scoring fake = 0.9 on every generated frame, the value entering the
no-face branch exceeds 0.5, so the branch returns it unchanged (the
"trust high frame scores" branch); the final fake score is exactly its
clamp and the classification is "fake" — never forced down. -/
theorem C3_theorem (frames : List Frame) (probe : Option (Bool × ℚ))
    (hne : frames ≠ [])
    (hfake : ∀ f ∈ frames, f.fake = 9/10)
    (hw : ∀ f ∈ frames, 0 < f.weight)
    (hprobe : isScreenHit probe = false) :
    1/2 < preNoFaceAvg frames 0 false none probe
    ∧ no_face_stage 0 (screenDetectedOf frames 0 false none probe)
        (faceScoresOf frames) (fftScoresOf frames) (eyeScoresOf frames)
        (preNoFaceAvg frames 0 false none probe)
      = preNoFaceAvg frames 0 false none probe
    ∧ (analyze_frames frames 0 false none probe).1.1
      = min (99/100) (preNoFaceAvg frames 0 false none probe)
    ∧ (finalize_classification (analyze_frames frames 0 false none probe).1.1
        (analyze_frames frames 0 false none probe).1.2).1 = "fake" := by
  have hlen : frames.length ≠ 0 := fun h => hne (List.length_eq_zero.mp h)
  have hW : totalWeightOf frames ≠ 0 := (totalWeight_pos hne hw).ne'
  have havg : weightedAvgFake frames = 9/10 := weightedAvgFake_const hne hw hfake
  have hfaceAll : ∀ x ∈ faceScoresOf frames, x = 9/10 :=
    filtered_fakes_const hfake _
  have hpre : preNoFaceAvg frames 0 false none probe
      = (gan_stage (fftScoresOf frames) (9/10)).1 := by
    unfold preNoFaceAvg
    simp only [temporal_stage_image, face_consistency_stage_const hfaceAll,
      filter_compensation_stage, screen_stage_no_hit hprobe, havg]
  have hgan : (9:ℚ)/10 ≤ (gan_stage (fftScoresOf frames) (9/10)).1 :=
    gan_stage_le _ _
  have h12 : 1/2 < preNoFaceAvg frames 0 false none probe := by
    rw [hpre]; linarith
  have hsd : screenDetectedOf frames 0 false none probe = false := by
    unfold screenDetectedOf
    simp only [screen_stage_no_hit hprobe]
  have hbr : no_face_stage 0 (screenDetectedOf frames 0 false none probe)
      (faceScoresOf frames) (fftScoresOf frames) (eyeScoresOf frames)
      (preNoFaceAvg frames 0 false none probe)
      = preNoFaceAvg frames 0 false none probe := by
    rw [hsd]; exact no_face_stage_high h12 _ _ _
  have hfinal : finalAvgFake frames 0 false none probe
      = preNoFaceAvg frames 0 false none probe := by
    unfold finalAvgFake; exact hbr
  have hsc := analyze_frames_scores hlen hW 0 false none probe
  have hfake1 : (analyze_frames frames 0 false none probe).1.1
      = min (99/100) (preNoFaceAvg frames 0 false none probe) := by
    rw [hsc, hfinal]
  refine ⟨h12, hbr, hfake1, ?_⟩
  have hge : (9:ℚ)/10 ≤ (analyze_frames frames 0 false none probe).1.1 := by
    rw [hfake1, hpre]
    exact le_min (by norm_num) hgan
  unfold finalize_classification
  rw [if_pos (lt_of_lt_of_le (by norm_num [FAKE_THRESHOLD]) hge)]

/-- C3 witness: the hypotheses discharged on a single no-face frame with
classifier score fake = 0.9, no screen probe result. -/
theorem C3_witness :
    ([⟨"frame1", 2, 9/10, 1/10⟩] : List Frame) ≠ []
    ∧ (∀ f ∈ ([⟨"frame1", 2, 9/10, 1/10⟩] : List Frame), f.fake = 9/10)
    ∧ (∀ f ∈ ([⟨"frame1", 2, 9/10, 1/10⟩] : List Frame), 0 < f.weight)
    ∧ isScreenHit none = false
    ∧ (finalize_classification
        (analyze_frames [⟨"frame1", 2, 9/10, 1/10⟩] 0 false none none).1.1
        (analyze_frames [⟨"frame1", 2, 9/10, 1/10⟩] 0 false none none).1.2).1
      = "fake" := by
  have h1 : ([⟨"frame1", 2, 9/10, 1/10⟩] : List Frame) ≠ [] := by simp
  have h2 : ∀ f ∈ ([⟨"frame1", 2, 9/10, 1/10⟩] : List Frame), f.fake = 9/10 := by
    intro f hf; rw [List.mem_singleton.mp hf]
  have h3 : ∀ f ∈ ([⟨"frame1", 2, 9/10, 1/10⟩] : List Frame), 0 < f.weight := by
    intro f hf; rw [List.mem_singleton.mp hf]; norm_num
  exact ⟨h1, h2, h3, rfl, (C3_theorem _ none h1 h2 h3 rfl).2.2.2⟩

/-- C4: with zero faces, no screen content detected, and the classifier
scoring fake = 0.05 on every generated frame, all three sub-averages fall
below 0.1, so the no-face branch forces the fixed authentic constant
0.08 (not the raw weighted average 0.05) and the classification is "real"
with confidence 0.92. -/
theorem C4_theorem (frames : List Frame) (probe : Option (Bool × ℚ))
    (hne : frames ≠ [])
    (hfake : ∀ f ∈ frames, f.fake = 1/20)
    (hw : ∀ f ∈ frames, 0 < f.weight)
    (hprobe : isScreenHit probe = false) :
    weightedAvgFake frames = 1/20
    ∧ (analyze_frames frames 0 false none probe).1 = (2/25, 23/25)
    ∧ finalize_classification (analyze_frames frames 0 false none probe).1.1
        (analyze_frames frames 0 false none probe).1.2 = ("real", 23/25) := by
  have hlen : frames.length ≠ 0 := fun h => hne (List.length_eq_zero.mp h)
  have hW : totalWeightOf frames ≠ 0 := (totalWeight_pos hne hw).ne'
  have havg : weightedAvgFake frames = 1/20 := weightedAvgFake_const hne hw hfake
  have hfaceAll : ∀ x ∈ faceScoresOf frames, x = 1/20 :=
    filtered_fakes_const hfake _
  have hfftAll : ∀ x ∈ fftScoresOf frames, x = 1/20 :=
    filtered_fakes_const hfake _
  have heyeAll : ∀ x ∈ eyeScoresOf frames, x = 1/20 :=
    filtered_fakes_const hfake _
  have hpre : preNoFaceAvg frames 0 false none probe = 1/20 := by
    unfold preNoFaceAvg
    simp only [temporal_stage_image, face_consistency_stage_const hfaceAll,
      filter_compensation_stage,
      gan_stage_const_low hfftAll (by norm_num [FAKE_THRESHOLD]),
      screen_stage_no_hit hprobe, havg]
  have hsd : screenDetectedOf frames 0 false none probe = false := by
    unfold screenDetectedOf
    simp only [screen_stage_no_hit hprobe]
  have hbr : no_face_stage 0 false (faceScoresOf frames) (fftScoresOf frames)
      (eyeScoresOf frames) (1/20) = 8/100 := by
    unfold no_face_stage
    rw [if_pos ⟨rfl, rfl⟩, if_neg (by norm_num),
      if_pos ⟨sub_avg_lt hfaceAll (by norm_num), sub_avg_lt hfftAll (by norm_num),
        sub_avg_lt heyeAll (by norm_num)⟩]
  have hfinal : finalAvgFake frames 0 false none probe = 8/100 := by
    unfold finalAvgFake
    rw [hsd, hpre, hbr]
  have hsc := analyze_frames_scores hlen hW 0 false none probe
  have hscores : (analyze_frames frames 0 false none probe).1 = (2/25, 23/25) := by
    rw [hsc, hfinal]
    norm_num [min_def, max_def]
  refine ⟨havg, hscores, ?_⟩
  rw [show (analyze_frames frames 0 false none probe).1.1 = 2/25 by rw [hscores],
      show (analyze_frames frames 0 false none probe).1.2 = 23/25 by rw [hscores]]
  norm_num [finalize_classification, FAKE_THRESHOLD, SUSPICIOUS_THRESHOLD]

/-- C4 witness: the hypotheses discharged on a single no-face frame with
classifier score fake = 0.05, no screen probe result. -/
theorem C4_witness :
    ([⟨"frame1", 2, 1/20, 19/20⟩] : List Frame) ≠ []
    ∧ (∀ f ∈ ([⟨"frame1", 2, 1/20, 19/20⟩] : List Frame), f.fake = 1/20)
    ∧ (∀ f ∈ ([⟨"frame1", 2, 1/20, 19/20⟩] : List Frame), 0 < f.weight)
    ∧ isScreenHit none = false
    ∧ (analyze_frames [⟨"frame1", 2, 1/20, 19/20⟩] 0 false none none).1
      = (2/25, 23/25) := by
  have h1 : ([⟨"frame1", 2, 1/20, 19/20⟩] : List Frame) ≠ [] := by simp
  have h2 : ∀ f ∈ ([⟨"frame1", 2, 1/20, 19/20⟩] : List Frame), f.fake = 1/20 := by
    intro f hf; rw [List.mem_singleton.mp hf]
  have h3 : ∀ f ∈ ([⟨"frame1", 2, 1/20, 19/20⟩] : List Frame), 0 < f.weight := by
    intro f hf; rw [List.mem_singleton.mp hf]; norm_num
  exact ⟨h1, h2, h3, rfl, (C4_theorem _ none h1 h2 h3 rfl).2.1⟩

/-- C5: filter compensation subtracts exactly intensity × 0.06
(floor-clamped at 0.08) whenever intensity exceeds 0.5, and the
subtracted amount is recorded as `filter_compensation`; Scenario B
(intensity 0.9, raw fake 0.6) yields 0.6 − 0.054 = 0.546 with 0.054
recorded end-to-end in the aggregation details. -/
theorem C5_theorem :
    (∀ fi a : ℚ, 1/2 < fi →
      filter_compensation_stage (some fi) a =
        (max (8/100) (a - fi * (6/100)), fi * (6/100)))
    ∧ filter_compensation_stage (some (9/10)) (6/10) = (273/500, 27/500)
    ∧ (analyze_frames [⟨"full", 1, 3/5, 2/5⟩] 1 false (some (9/10)) none).2
        = some ⟨0, 0, 27/500, 0⟩
    ∧ (analyze_frames [⟨"full", 1, 3/5, 2/5⟩] 1 false (some (9/10)) none).1.1
        = 273/500 := by
  have h1 : isFaceName "full" = false := by decide
  have h2 : isFftName "full" = false := by decide
  have h3 : isEyeName "full" = false := by decide
  refine ⟨?_, by norm_num [filter_compensation_stage, max_def], ?_, ?_⟩
  · intro fi a h
    simp only [filter_compensation_stage]
    rw [if_pos h]
  all_goals
    norm_num [analyze_frames, totalWeightOf, weightedAvgFake, temporal_stage,
      face_consistency_stage, filter_compensation_stage, gan_stage,
      screen_stage, no_face_stage, faceScoresOf, fftScoresOf, eyeScoresOf,
      List.filter_cons, h1, h2, h3, listMax, FAKE_THRESHOLD,
      GAN_FINGERPRINT_BOOST, max_def, min_def]

/-- C5 witness: the compensation formula discharged at intensity 0.9 on
raw score 0.6. -/
theorem C5_witness :
    (1:ℚ)/2 < 9/10
    ∧ filter_compensation_stage (some (9/10)) (6/10) = (273/500, 27/500) := by
  refine ⟨by norm_num, ?_⟩
  rw [C5_theorem.1 (9/10) (6/10) (by norm_num)]
  norm_num [max_def]

/-- C6 (counterexample): for per-face fake scores [0.2, 0.9] the
population variance is 0.1225 = 49/400, which does NOT exceed the 0.15
threshold, so the multi-face consistency stage adds no boost — the
claimed boost min(0.12, variance × 0.5) = 0.06125 is not applied. -/
theorem C6_counterexample :
    popVar [1/5, 9/10] = 49/400
    ∧ ¬ (15/100 < popVar [(1:ℚ)/5, 9/10])
    ∧ face_consistency_stage [1/5, 9/10] (6/10) = (6/10, 0)
    ∧ min (12/100) (popVar [(1:ℚ)/5, 9/10] * (1/2)) ≠ 0 := by
  norm_num [face_consistency_stage, popVar, listMean, min_def]

/-- C6 (amended): with per-face scores [0.2, 0.9] the variance 0.1225 is
below the 0.15 threshold and no boost is added; the boost
min(0.12, variance × 0.5) is added exactly once precisely when more than
one face score is recorded and their variance exceeds 0.15. -/
theorem C6_theorem :
    (∀ a : ℚ, face_consistency_stage [1/5, 9/10] a = (a, 0))
    ∧ (∀ (scores : List ℚ) (a : ℚ), 1 < scores.length →
        15/100 < popVar scores →
        face_consistency_stage scores a =
          (a + min (12/100) (popVar scores * (1/2)),
           min (12/100) (popVar scores * (1/2)))) := by
  constructor
  · intro a
    norm_num [face_consistency_stage, popVar, listMean]
  · intro scores a h1 h2
    unfold face_consistency_stage
    rw [if_pos h1, if_pos h2]

/-- C6 witness: the amended gating discharged at scores [0.1, 0.9]
(variance 0.16 > 0.15, boost min(0.12, 0.08) = 0.08). -/
theorem C6_witness :
    1 < ([(1:ℚ)/10, 9/10] : List ℚ).length
    ∧ 15/100 < popVar [(1:ℚ)/10, 9/10]
    ∧ face_consistency_stage [1/10, 9/10] (1/2) = (1/2 + 2/25, 2/25) := by
  have hv : popVar [(1:ℚ)/10, 9/10] = 4/25 := by norm_num [popVar, listMean]
  refine ⟨by norm_num, by rw [hv]; norm_num, ?_⟩
  rw [C6_theorem.2 [1/10, 9/10] (1/2) (by norm_num) (by rw [hv]; norm_num), hv]
  norm_num [min_def]

/-- C7: the Phase-1 forensic boosts are independently gated and additive:
with both EXIF flags set the total equals 0.10 + 0.05, whatever the other
two gates do; in general the total is the sum of the four independent
contributions. -/
theorem C7_theorem :
    phase1_boost false true true false = 10/100 + 5/100
    ∧ (∀ dc bl : Bool, phase1_boost dc true true bl
        = phase1_boost dc false false bl + (10/100 + 5/100))
    ∧ (∀ dc ed ms bl : Bool, phase1_boost dc ed ms bl
        = phase1_boost dc false false false
          + phase1_boost false ed false false
          + phase1_boost false false ms false
          + phase1_boost false false false bl) := by
  refine ⟨by norm_num [phase1_boost], ?_, ?_⟩
  · intro dc bl
    cases dc <;> cases bl <;> norm_num [phase1_boost]
  · intro dc ed ms bl
    cases dc <;> cases ed <;> cases ms <;> cases bl <;> norm_num [phase1_boost]

/-- C8 (counterexample): the claim "every heuristic probe ... never raises
an exception to its caller" fails: `analyze_color_consistency` has no
exception handling, so with its image-processing backend unavailable the
failure propagates to the caller instead of yielding a neutral 0.0 score
with an error marker. -/
theorem C8_counterexample :
    analyze_color_consistency false ⟨20, 20⟩ = Except.error () := rfl

set_option maxHeartbeats 1600000 in
/-- C8 (amended): probes wrapped in try/except (here
`detect_social_media_filters`) clamp their score to [0, 1] and degrade to
a neutral 0.0 plus an error marker on failure; `analyze_color_consistency`
also clamps its score to [0, 1] but has no handler and no details map —
a backend failure propagates to its caller. -/
theorem C8_theorem :
    (∀ s : ColorStats, analyze_color_consistency false s = Except.error ())
    ∧ (∀ (s : ColorStats) (q : ℚ), analyze_color_consistency true s = Except.ok q →
        0 ≤ q ∧ q ≤ 1)
    ∧ (∀ s : FilterStats,
        0 ≤ (detect_social_media_filters true s).1
        ∧ (detect_social_media_filters true s).1 ≤ 1
        ∧ (detect_social_media_filters true s).2.error = false)
    ∧ (∀ s : FilterStats, detect_social_media_filters false s
        = (0, { filters_detected := [], error := true })) := by
  refine ⟨fun s => rfl, ?_, ?_, fun s => rfl⟩
  · intro s q h
    have hq : min 1 ((|s.aStd - 20| / 20 + |s.bStd - 20| / 20) / 2) = q := by
      simpa [analyze_color_consistency] using h
    rw [← hq]
    constructor
    · refine le_min (by norm_num) ?_
      positivity
    · exact min_le_left _ _
  · intro s
    unfold detect_social_media_filters
    rw [if_neg (by simp)]
    dsimp only
    refine ⟨?_, min_le_right _ _, rfl⟩
    refine le_min ?_ (by norm_num)
    split_ifs <;> dsimp only <;>
      linarith [le_max_left (0:ℚ) ((1:ℚ) ⊓ (1 - s.skinLStd / 30))]

/-- C8 witness: the clamp clause of the success path of
`analyze_color_consistency` discharged at the neutral statistics (20, 20),
where the returned suspicion is 0. -/
theorem C8_witness :
    analyze_color_consistency true ⟨20, 20⟩ = Except.ok 0
    ∧ (0 ≤ (0:ℚ) ∧ (0:ℚ) ≤ 1) := by
  have h : analyze_color_consistency true ⟨20, 20⟩ = Except.ok 0 := by
    norm_num [analyze_color_consistency, min_def]
  exact ⟨h, C8_theorem.2.1 ⟨20, 20⟩ 0 h⟩

/-- C9: `detect_faces` tries the parameter combinations in the fixed
order (1.1, 5), (1.05, 3), (1.2, 6) and uses the first nonempty
detection list; each kept detection carries
confidence = (min(1, area/150²) + (1 − |1 − w/h| × 0.5)) / 2 computed on
the (rescaled) box and at least the 0.55 threshold; a raw detection
scoring below the threshold contributes no face. -/
theorem C9_theorem (wOrig : ℕ) (det : ℚ × ℕ → List BBox) :
    (det (11/10, 5) ≠ [] →
      detect_faces wOrig det = processBoxes wOrig (det (11/10, 5)))
    ∧ (det (11/10, 5) = [] → det (21/20, 3) ≠ [] →
      detect_faces wOrig det = processBoxes wOrig (det (21/20, 3)))
    ∧ (det (11/10, 5) = [] → det (21/20, 3) = [] →
      detect_faces wOrig det = processBoxes wOrig (det (6/5, 6)))
    ∧ (∀ f ∈ detect_faces wOrig det,
        FACE_CONFIDENCE_THRESHOLD ≤ f.confidence
        ∧ f.confidence = (min 1 ((f.bbox.w * f.bbox.h : ℚ) / (150 * 150))
            + (1 - |1 - (if f.bbox.h > 0 then (f.bbox.w : ℚ) / (f.bbox.h : ℚ) else 0)|
                * (1/2))) / 2)
    ∧ (∀ (i : ℕ) (b : BBox), (firstNonEmptyDet det)[i]? = some b →
        boxConfidence (rescaleBox wOrig b) < FACE_CONFIDENCE_THRESHOLD →
        ∀ f ∈ detect_faces wOrig det, f.index ≠ i) := by
  refine ⟨?_, ?_, ?_, ?_, ?_⟩
  · intro h
    rcases hd : det (11/10, 5) with _ | ⟨x, t⟩
    · exact absurd hd h
    · unfold detect_faces firstNonEmptyDet
      rw [hd]
  · intro h1 h2
    rcases hd : det (21/20, 3) with _ | ⟨x, t⟩
    · exact absurd hd h2
    · unfold detect_faces firstNonEmptyDet
      rw [h1, hd]
  · intro h1 h2
    unfold detect_faces firstNonEmptyDet
    rw [h1, h2]
  · intro f hf
    unfold detect_faces processBoxes at hf
    obtain ⟨⟨j, b0⟩, hmem, heq⟩ := List.mem_filterMap.mp hf
    dsimp only at heq
    by_cases hc : FACE_CONFIDENCE_THRESHOLD ≤ boxConfidence (rescaleBox wOrig b0)
    · rw [if_pos hc] at heq
      obtain rfl := Option.some.inj heq
      exact ⟨hc, rfl⟩
    · rw [if_neg hc] at heq
      exact Option.noConfusion heq
  · intro i b hget hconf f hf
    unfold detect_faces processBoxes at hf
    obtain ⟨⟨j, b0⟩, hmem, heq⟩ := List.mem_filterMap.mp hf
    dsimp only at heq
    by_cases hc : FACE_CONFIDENCE_THRESHOLD ≤ boxConfidence (rescaleBox wOrig b0)
    · rw [if_pos hc] at heq
      obtain rfl := Option.some.inj heq
      intro hji
      have hji' : j = i := hji
      have hj : (firstNonEmptyDet det)[j]? = some b0 :=
        List.mk_mem_enum_iff_getElem?.mp hmem
      rw [hji', hget] at hj
      obtain rfl := Option.some.inj hj
      exact absurd hc (not_le.mpr hconf)
    · rw [if_neg hc] at heq
      exact Option.noConfusion heq

/-- C9 witness: the first-combination clause discharged on a detector
stub that answers only for (1.1, 5) with a single 200×100 box, whose
confidence evaluates to (8/9 + 1/2)/2 = 25/36 ≥ 0.55. -/
theorem C9_witness :
    (fun p : ℚ × ℕ => if p = (11/10, 5) then [(⟨0, 0, 200, 100⟩ : BBox)] else [])
        (11/10, 5) ≠ []
    ∧ detect_faces 0
        (fun p : ℚ × ℕ => if p = (11/10, 5) then [(⟨0, 0, 200, 100⟩ : BBox)] else [])
      = processBoxes 0
        ((fun p : ℚ × ℕ => if p = (11/10, 5) then [(⟨0, 0, 200, 100⟩ : BBox)] else [])
          (11/10, 5))
    ∧ processBoxes 0 [(⟨0, 0, 200, 100⟩ : BBox)]
      = [⟨⟨0, 0, 200, 100⟩, 25/36, 0⟩] := by
  refine ⟨by simp, (C9_theorem 0 _).1 (by simp), ?_⟩
  norm_num [processBoxes, rescaleBox, boxConfidence, FACE_CONFIDENCE_THRESHOLD,
    List.enum, List.enumFrom, List.filterMap_cons, List.filterMap_nil, min_def]

/-- C10: the EXIF probe never reports `metadata_stripped` and
`editing_software_detected` both true: with no EXIF data it returns
immediately with score 0.3, `metadata_stripped = true` and
`editing_software_detected = false`; with EXIF data present
`metadata_stripped` stays false (and the error path sets neither). -/
theorem C10_theorem (backendOk : Bool) (exif : List (String × String)) :
    ¬ ((analyze_exif_metadata backendOk exif).2.metadata_stripped = true
        ∧ (analyze_exif_metadata backendOk exif).2.editing_software_detected = true)
    ∧ (backendOk = true → exif = [] →
        analyze_exif_metadata backendOk exif
          = (3/10, { initExifDetails with metadata_stripped := true }))
    ∧ (exif ≠ [] →
        (analyze_exif_metadata backendOk exif).2.metadata_stripped = false) := by
  cases backendOk with
  | false =>
      refine ⟨fun h => ?_, fun h => absurd h (by simp), fun _ => rfl⟩
      exact Bool.false_ne_true h.1
  | true =>
      cases exif with
      | nil =>
          refine ⟨fun h => Bool.false_ne_true h.2, fun _ _ => rfl,
            fun h => absurd rfl h⟩
      | cons x t =>
          have hstr : (analyze_exif_metadata true (x :: t)).2.metadata_stripped
              = false := by
            unfold analyze_exif_metadata
            rw [if_neg (by simp), if_neg (by simp)]
            dsimp only
            rw [exifDateCheck_stripped, foldl_exifStep_stripped]
            rfl
          refine ⟨fun h => ?_, fun _ h => absurd h (by simp), fun _ => hstr⟩
          rw [hstr] at h
          exact Bool.false_ne_true h.1

/-- C10 witness: the no-EXIF clause discharged at the empty tag list, and
the EXIF-present clause at a Photoshop Software tag. -/
theorem C10_witness :
    (([] : List (String × String)) = [])
    ∧ (([("Software", "Adobe Photoshop 2024")] : List (String × String)) ≠ [])
    ∧ analyze_exif_metadata true []
      = (3/10, { initExifDetails with metadata_stripped := true })
    ∧ (analyze_exif_metadata true
        [("Software", "Adobe Photoshop 2024")]).2.metadata_stripped = false :=
  ⟨rfl, by simp, (C10_theorem true []).2.1 rfl rfl,
   (C10_theorem true [("Software", "Adobe Photoshop 2024")]).2.2 (by simp)⟩

end TrueVibe
